import Mathlib

/-!
Verification of the Prowlarr-Orionoid bridge (Python sources: `main.py`,
`torznab_builder.py`, `orionoid_client.py`, `config.py`) against its
natural-language specification.

The Python code is shallowly embedded: dictionaries become structures with
option-valued fields (matching Python truthiness where the code tests it),
the upstream Orionoid call is an oracle function `MediaType → Int → Except
String OrionPayload` at the granularity of `search_orionoid` (which raises
on provider-reported errors), and per-item XML construction becomes a
function into `Option Item` (the `try/except` in `_build_item`).
-/

namespace POB

/-- Python substring membership `pat in s` over character lists:
true when `pat` occurs contiguously in `l`. -/
def charsHasSub (pat : List Char) : List Char → Bool
  | [] => pat.isEmpty
  | c :: rest => pat.isPrefixOf (c :: rest) || charsHasSub pat rest

/-- Python `pat in s` on strings (substring containment). -/
def strHasSub (s pat : String) : Bool :=
  charsHasSub pat.data s.data

/-- Python `s.upper()` (character-wise, as the code applies it to ASCII
quality/codec strings). -/
def pyUpper (s : String) : String :=
  ⟨s.data.map Char.toUpper⟩

/-- Python `s.lower()` (character-wise). -/
def pyLower (s : String) : String :=
  ⟨s.data.map Char.toLower⟩

/-- Python `s.startswith(pat)`. -/
def pyStartsWith (s pat : String) : Bool :=
  pat.data.isPrefixOf s.data

/-- Python `s[n:]`. -/
def pyDrop (s : String) (n : Nat) : String :=
  ⟨s.data.drop n⟩

/-- Python `s.split(",")` over the character list: `""` yields `[""]`,
and separators delimit possibly-empty fields. -/
def splitCharsComma : List Char → List (List Char)
  | [] => [[]]
  | c :: rest =>
    match splitCharsComma rest with
    | [] => if c = ',' then [[], []] else [[c]]
    | h :: t => if c = ',' then [] :: h :: t else (c :: h) :: t

/-- Python `s.split(",")`. -/
def pySplitComma (s : String) : List String :=
  (splitCharsComma s.data).map fun l => ⟨l⟩

/-- Numeric value of an all-digit string (Python `int(s)`). -/
def digitsToNat (s : String) : Nat :=
  s.data.foldl (fun acc c => acc * 10 + (c.toNat - 48)) 0

/-- Python truthiness of an optional string (`None` and `""` are falsy). -/
def optTruthy : Option String → Bool
  | none => false
  | some s => s ≠ ""

/-! ## Configuration (`config.py` defaults) -/

/-- `Settings.default_search_limit` in `config.py`. -/
def defaultSearchLimit : Int := 100

/-- `Settings.max_search_limit` in `config.py`. -/
def maxSearchLimit : Int := 1000

/-! ## Data model -/

/-- A JSON scalar as it can appear in a provider payload field whose type
the Python code does not validate (used for `time.added`, where a
non-numeric value makes `datetime.fromtimestamp` raise). -/
inductive JVal where
  | jnum (n : Int)
  | jstr (s : String)
  deriving DecidableEq, Repr

/-- Python truthiness of a `JVal` (`0` and `""` are falsy). -/
def JVal.truthy : JVal → Bool
  | .jnum n => n ≠ 0
  | .jstr s => s ≠ ""

inductive MediaType where
  | movie
  | show
  deriving DecidableEq, Repr

/-- One provider stream record, restricted to the fields the bridge reads.
String fields use `""` for an absent value, matching the code's uniform
`dict.get(key, "")` / truthiness treatment. `hasEpisode` is the truthiness
of `stream["meta"]["episode"]`; `mediaTag` is the `_media_type` key written
by the combined search. -/
structure StreamRecord where
  id : String
  fileName : String
  fileSize : Nat
  metaTitle : String
  videoQuality : String
  videoCodec : String
  hasEpisode : Bool
  timeAdded : Option JVal
  links : List String
  mediaTag : Option String
  deriving DecidableEq, Repr

/-- The `data` part of a successful provider response. -/
structure OrionPayload where
  streams : List StreamRecord
  count : Nat
  deriving DecidableEq, Repr

/-! ## Response renderer (`torznab_builder.py`) -/

/-- `TorznabBuilder._determine_category` (torznab_builder.py lines 257-274). -/
def determineCategory (s : StreamRecord) (queryType : String) : Nat :=
  if strHasSub (pyLower s.videoQuality) "2160" || strHasSub (pyLower s.videoQuality) "uhd"
      || strHasSub (pyLower s.videoQuality) "4k" then
    if queryType == "tvsearch" || s.hasEpisode then 5080 else 2060
  else if strHasSub (pyLower s.videoQuality) "1080" || strHasSub (pyLower s.videoQuality) "720"
      || strHasSub (pyLower s.videoQuality) "hd" then
    if queryType == "tvsearch" || s.hasEpisode then 5040 else 2040
  else if strHasSub (pyLower s.videoQuality) "sd" || strHasSub (pyLower s.videoQuality) "480" then
    if queryType == "tvsearch" || s.hasEpisode then 5030 else 2030
  else
    if queryType == "tvsearch" || s.hasEpisode then 5000 else 2000

/-- Title construction in `TorznabBuilder._build_item` (lines 139-157):
`title_parts` collects filename (else meta title), then bracketed
uppercased quality and codec; the joined string, or `"Unknown"` when no
part was collected. -/
def buildTitle (s : StreamRecord) : String :=
  let parts : List String :=
    (if s.fileName ≠ "" then [s.fileName]
     else if s.metaTitle ≠ "" then [s.metaTitle]
     else [])
    ++ (if s.videoQuality ≠ "" then ["[" ++ pyUpper s.videoQuality ++ "]"] else [])
    ++ (if s.videoCodec ≠ "" then ["[" ++ pyUpper s.videoCodec ++ "]"] else [])
  if parts.isEmpty then "Unknown" else String.intercalate " " parts

/-- The `pubDate` computation in `_build_item` (lines 174-177):
`datetime.fromtimestamp(time_info["added"])` raises a `TypeError` when the
provider supplied a non-numeric value; a falsy or absent value skips the
element. -/
def pubDateField : Option JVal → Except String (Option Int)
  | none => .ok none
  | some v =>
    if v.truthy then
      match v with
      | .jnum n => .ok (some n)
      | .jstr _ => .error "TypeError: fromtimestamp argument must be a number"
    else
      .ok none

/-- One rendered `<item>`, restricted to the fields the claims mention. -/
structure Item where
  title : String
  guid : String
  link : Option String
  pubDate : Option Int
  size : Nat
  category : Nat
  deriving DecidableEq, Repr

/-- The body of `TorznabBuilder._build_item` before its `except` clause:
any raised error is propagated as `Except.error`. -/
def buildItemE (s : StreamRecord) (queryType : String) : Except String Item := do
  let pd ← pubDateField s.timeAdded
  Except.ok
    { title := buildTitle s
      guid := s.id
      link := s.links.head?
      pubDate := pd
      size := s.fileSize
      category := determineCategory s queryType }

/-- `TorznabBuilder._build_item` (lines 127-255): the `try/except` catches
any error and yields `None` so the record is skipped. -/
def buildItem (s : StreamRecord) (queryType : String) : Option Item :=
  (buildItemE s queryType).toOption

/-- The rendered search-results document: `total` attribute of the
`newznab:response` element plus the surviving `<item>` elements. -/
structure SearchDoc where
  total : Nat
  items : List Item
  deriving DecidableEq, Repr

/-- `TorznabBuilder.build_search_results` (lines 96-125): `total` is
`len(streams)` computed before the per-item loop; each stream yields an
item unless `_build_item` returned `None`. -/
def buildSearchResults (payload : OrionPayload) (queryType : String) : SearchDoc :=
  { total := payload.streams.length
    items := payload.streams.filterMap (fun s => buildItem s queryType) }

/-! ## Request router (`main.py`) -/

/-- `check_api_key` (main.py lines 76-79): raises HTTP 403 exactly when a
shared secret is configured (Python-truthy: set and non-empty) and the
supplied key differs from it. -/
def checkApiKeyRejects (secret : Option String) (apikey : Option String) : Bool :=
  match secret with
  | none => false
  | some s => s ≠ "" && apikey ≠ some s

/-- The limit computation at main.py line 266,
`limit = min(limit or settings.default_search_limit, settings.max_search_limit)`,
composed with the FastAPI query default of `100` for an absent parameter.
`limit or default` replaces only falsy values (`None`, `0`); a negative
limit is truthy and passes through. -/
def clampLimit (limit : Option Int) : Int :=
  let supplied := limit.getD 100
  let l := if supplied = 0 then defaultSearchLimit else supplied
  min l maxSearchLimit

/-- The category parsing at main.py line 273:
`[int(c) for c in cat.split(",") if c.isdigit()]`. -/
def parseCategories (cat : String) : List Nat :=
  (pySplitComma cat).filterMap fun c =>
    if c.length ≠ 0 && c.data.all Char.isDigit then some (digitsToNat c) else none

/-- The media-type classification at main.py lines 273-277: Show when any
parsed category code lies in `[5000, 6000)`, Movie otherwise. -/
def mediaTypeFromCat (cat : String) : MediaType :=
  if (parseCategories cat).any (fun c => 5000 ≤ c && c < 6000) then .show else .movie

/-- One call made to `search_orionoid`, recording its media type and limit. -/
structure UpstreamCall where
  mt : MediaType
  lim : Int
  deriving DecidableEq, Repr

/-- Writing `stream["_media_type"] = tag` over a batch of streams
(main.py lines 325-326 and 332-333). -/
def tagStreams (tag : String) (l : List StreamRecord) : List StreamRecord :=
  l.map fun s => { s with mediaTag := some tag }

/-- The combination step of the no-category search (main.py lines 313-340):
surviving streams are tagged and concatenated, an error is raised exactly
when both searches failed, and `count` is recomputed as the number of
surviving streams. -/
def combineBoth (movieRes tvRes : Except String OrionPayload) :
    Except String OrionPayload :=
  let movieStreams := match movieRes.toOption with
    | some p => tagStreams "movie" p.streams
    | none => []
  let tvStreams := match tvRes.toOption with
    | some p => tagStreams "show" p.streams
    | none => []
  if movieRes.toOption.isNone && tvRes.toOption.isNone then
    .error "Both movie and TV searches failed"
  else
    .ok { streams := movieStreams ++ tvStreams
          count := (movieStreams ++ tvStreams).length }

/-- The no-category branch of `t=search` (main.py lines 285-340): two
upstream searches, each with `limit // 2` (Python floor division). -/
def dualSearch (lim : Int) (upstream : MediaType → Int → Except String OrionPayload) :
    List UpstreamCall × Except String OrionPayload :=
  let hl := Int.fdiv lim 2
  ([⟨.movie, hl⟩, ⟨.show, hl⟩], combineBoth (upstream .movie hl) (upstream .show hl))

/-- The `t=search` branch of `api_endpoint` (main.py lines 269-340). The
branch condition is `if cat:`, Python truthiness, so an empty category
string behaves like an absent one. -/
def searchDispatch (cat : Option String) (lim : Int)
    (upstream : MediaType → Int → Except String OrionPayload) :
    List UpstreamCall × Except String OrionPayload :=
  match cat with
  | some c =>
    if c = "" then dualSearch lim upstream
    else ([⟨mediaTypeFromCat c, lim⟩], upstream (mediaTypeFromCat c) lim)
  | none => dualSearch lim upstream

/-- A rendered XML response body from `/api`. -/
inductive XmlOut where
  | caps
  | errorDoc (code : Nat) (description : String)
  | results (doc : SearchDoc)
  deriving DecidableEq, Repr

/-- The observable outcome of an `/api` request: either an XML body
(HTTP 200) or an HTTP-level rejection (`HTTPException`). -/
inductive ApiResult where
  | http (code : Nat)
  | xml (x : XmlOut)
  deriving DecidableEq, Repr

/-- Folding a search outcome into the response (main.py lines 370-383):
a successful payload is rendered by `build_search_results`; an exception
is caught by the outer handler and rendered as error document 100 with
the exception message. -/
def renderResult (res : Except String OrionPayload) (queryType : String) : ApiResult :=
  match res with
  | .error msg => .xml (.errorDoc 100 msg)
  | .ok payload => .xml (.results (buildSearchResults payload queryType))

/-- The query parameters of an `/api` request that the router reads. -/
structure ReqParams where
  t : String
  apikey : Option String
  q : Option String
  cat : Option String
  imdbid : Option String
  limit : Option Int
  deriving DecidableEq, Repr

/-- `api_endpoint` (main.py lines 230-383), with the upstream abstracted
at the granularity of `search_orionoid` (media type and limit; the oracle
returns the successful payload, or the message of the exception
`search_orionoid` raised). Returns the list of upstream calls made and
the response. -/
def apiEndpoint (secret : Option String) (clientInit : Bool)
    (upstream : MediaType → Int → Except String OrionPayload)
    (p : ReqParams) : List UpstreamCall × ApiResult :=
  if p.t = "caps" then ([], .xml .caps)
  else if checkApiKeyRejects secret p.apikey then ([], .http 403)
  else if !clientInit then ([], .http 503)
  else
    let lim := clampLimit p.limit
    if p.t = "search" then
      ((searchDispatch p.cat lim upstream).1,
        renderResult (searchDispatch p.cat lim upstream).2 "search")
    else if p.t = "tvsearch" then
      ([⟨.show, lim⟩], renderResult (upstream .show lim) "tvsearch")
    else if p.t = "movie" then
      ([⟨.movie, lim⟩], renderResult (upstream .movie lim) "movie")
    else
      ([], .xml (.errorDoc 201 ("Incorrect parameter: unknown function " ++ p.t)))

/-! ## Upstream query assembly (`search_orionoid` in `main.py` and
`OrionoidClient.search_streams` in `orionoid_client.py`) -/

/-- The upstream form parameters relevant to identifier handling. -/
structure UpstreamQuery where
  query : Option String
  idimdb : Option String
  idtvdb : Option String
  idtmdb : Option String
  mediaType : MediaType
  limitcount : Int
  deriving DecidableEq, Repr

/-- `if x: params[key] = x` in `search_streams`: a parameter is included
only when truthy. -/
def optParam : Option String → Option String
  | none => none
  | some s => if s ≠ "" then some s else none

/-- `search_orionoid` (main.py lines 386-422) composed with the parameter
assembly of `search_streams` (orionoid_client.py lines 45-91): empty
searches are substituted with a fixed probe query and limit 1, the IMDb
id has a leading `tt` stripped, and each identifier is sent only when
non-empty. -/
def searchOrionoidQuery (query imdbId tvdbId tmdbId : Option String)
    (mt : MediaType) (lim : Int) : UpstreamQuery :=
  let noCrit := !(optTruthy query || optTruthy imdbId || optTruthy tvdbId || optTruthy tmdbId)
  let query := if noCrit then some "The Matrix" else query
  let lim := if noCrit then 1 else lim
  let imdbId := match imdbId with
    | some s => if s ≠ "" && pyStartsWith s "tt" then some (pyDrop s 2) else some s
    | none => none
  { query := optParam query
    idimdb := optParam imdbId
    idtvdb := optParam tvdbId
    idtmdb := optParam tmdbId
    mediaType := mt
    limitcount := lim }

/-! ## Health aggregator (`health_check` in `main.py`) -/

/-- The cached health response body: its overall status, an abstract
payload identity (so that returning the cache verbatim is expressible),
and the `_status_code` field stored inside the body (main.py line 220). -/
structure HealthResp where
  overall : String
  payload : Nat
  statusCode : Nat
  deriving DecidableEq, Repr

/-- The module-level health cache (`health_check_cache`,
`health_check_cache_time`). -/
structure HealthState where
  cache : Option HealthResp
  cacheTime : Option Int
  deriving DecidableEq, Repr

/-- The observable outcome of one `/health` call: the response body, the
HTTP status code it was served with, and whether a fresh computation ran
(as opposed to a cache hit). -/
structure HealthOut where
  resp : HealthResp
  httpCode : Nat
  recomputed : Bool
  deriving DecidableEq, Repr

/-- The cache check of `health_check` (main.py lines 101-109): an
unforced call with a cache entry younger than 30 seconds hits; the whole
`health_check` is modelled as `healthCheckStep`, whose fresh computation
(sub-check aggregation) is abstracted by its resulting overall status
`freshStatus` and body identity `freshPayload`. -/
def cacheLookup (st : HealthState) (force : Bool) (now : Int) : Option HealthResp :=
  if force then none
  else match st.cache, st.cacheTime with
    | some c, some tm => if now - tm < 30 then some c else none
    | _, _ => none

/-- The recompute-and-cache path of `health_check` combined with the
cache check (see `cacheLookup`): a hit is returned as is; otherwise the
fresh result is returned with 503 when unhealthy (else 200) and stored
only when not unhealthy. -/
def healthCheckStep (st : HealthState) (force : Bool) (now : Int)
    (freshStatus : String) (freshPayload : Nat) : HealthOut × HealthState :=
  match cacheLookup st force now with
  | some c => (⟨c, c.statusCode, false⟩, st)
  | none =>
    let code := if freshStatus = "unhealthy" then 503 else 200
    let resp : HealthResp := ⟨freshStatus, freshPayload, code⟩
    let st' := if freshStatus ≠ "unhealthy" then ⟨some resp, some now⟩ else st
    (⟨resp, code, true⟩, st')

/-! ## Spec-side definitions (for refinement comparisons) -/

/-- Modelled from the spec claim on category inference: ordered token
tests on the lowercased quality string (`2160`/`uhd`/`4k` then
`1080`/`720`/`hd` then `480`/`sd`), with the TV branch taken exactly when
the function is `tvsearch` or the record carries episode metadata. -/
def claimCategory (s : StreamRecord) (fn : String) : Nat :=
  if strHasSub (pyLower s.videoQuality) "2160" || strHasSub (pyLower s.videoQuality) "uhd"
      || strHasSub (pyLower s.videoQuality) "4k" then
    if fn == "tvsearch" || s.hasEpisode then 5080 else 2060
  else if strHasSub (pyLower s.videoQuality) "1080" || strHasSub (pyLower s.videoQuality) "720"
      || strHasSub (pyLower s.videoQuality) "hd" then
    if fn == "tvsearch" || s.hasEpisode then 5040 else 2040
  else if strHasSub (pyLower s.videoQuality) "480" || strHasSub (pyLower s.videoQuality) "sd" then
    if fn == "tvsearch" || s.hasEpisode then 5030 else 2030
  else
    if fn == "tvsearch" || s.hasEpisode then 5000 else 2000

/-- Modelled from the amended title claim: base part is the filename,
else the source title, else nothing; bracketed uppercased quality and
codec tags follow; the literal `"Unknown"` appears only when there is no
part at all. -/
def claimTitle (s : StreamRecord) : String :=
  let base : Option String :=
    if s.fileName ≠ "" then some s.fileName
    else if s.metaTitle ≠ "" then some s.metaTitle
    else none
  let tags : List String :=
    (if s.videoQuality ≠ "" then ["[" ++ pyUpper s.videoQuality ++ "]"] else [])
    ++ (if s.videoCodec ≠ "" then ["[" ++ pyUpper s.videoCodec ++ "]"] else [])
  match base, tags with
  | none, [] => "Unknown"
  | none, ts => String.intercalate " " ts
  | some b, ts => String.intercalate " " (b :: ts)

/-- The surviving streams of one half of a combined search, tagged with
their originating media type (empty when that search failed). -/
def survTagged (tag : String) (e : Except String OrionPayload) : List StreamRecord :=
  match e.toOption with
  | some p => tagStreams tag p.streams
  | none => []

/-! ## Concrete sample data for witnesses and counterexamples -/

/-- A well-formed provider record. -/
def goodRecord : StreamRecord :=
  ⟨"id1", "Matrix.mkv", 700, "", "1080p", "x264", false, some (.jnum 1000), ["magnet:a"], none⟩

/-- A record with no metadata at all. -/
def plainRecord : StreamRecord :=
  ⟨"id2", "", 0, "", "", "", false, none, [], none⟩

/-- A record whose item construction raises (`fromtimestamp` on a
non-numeric `time.added`). -/
def badRecord : StreamRecord :=
  ⟨"id3", "Broken.mkv", 0, "", "", "", false, some (.jstr "yesterday"), [], none⟩

/-- A record with neither filename nor source title but with a quality
string. -/
def tagsOnlyRecord : StreamRecord :=
  ⟨"id4", "", 0, "", "720p", "", false, none, [], none⟩

/-- A record tagged show-type by a combined search but carrying no
episode metadata. -/
def showTaggedRecord : StreamRecord :=
  ⟨"id5", "Show.mkv", 0, "", "720p", "", false, none, [], some "show"⟩

/-- An upstream oracle whose movie search succeeds and whose show search
fails. -/
def sampleUpstream : MediaType → Int → Except String OrionPayload
  | .movie, _ => .ok ⟨[goodRecord], 1⟩
  | .show, _ => .error "Orionoid API error: boom"

/-! ## Theorems -/

/-- C3, counterexample: the claim says a negative limit is replaced by
the configured default and that the upstream limit always lies in
`[1, maxSearchLimit]`. At `limit = -5` the code computes
`min(-5 or 100, 1000) = -5` (a negative number is truthy, so `or` does
not replace it): the upstream limit is `-5`, below `1` and not the
default. -/
theorem c3_negative_limit_not_clamped :
    clampLimit (some (-5)) = -5 ∧ clampLimit (some (-5)) < 1 ∧
      clampLimit (some (-5)) ≠ defaultSearchLimit := by
  refine ⟨by decide, by decide, by decide⟩

/-- C3, amended: an absent or zero limit is replaced by the default
(100); the upstream limit never exceeds `maxSearchLimit`, and lies in
`[1, maxSearchLimit]` whenever the supplied limit is positive; a negative
limit is passed through unchanged (only the upper cap applies). -/
theorem c3_limit_clamping :
    clampLimit none = defaultSearchLimit ∧
    clampLimit (some 0) = defaultSearchLimit ∧
    (∀ v : Int, clampLimit (some v) ≤ maxSearchLimit) ∧
    (∀ v : Int, 1 ≤ v → 1 ≤ clampLimit (some v) ∧ clampLimit (some v) ≤ maxSearchLimit) ∧
    (∀ v : Int, v < 0 → clampLimit (some v) = v) := by
  refine ⟨by decide, by decide, ?_, ?_, ?_⟩
  · intro v
    simp only [clampLimit, Option.getD_some]
    split_ifs <;> simp [defaultSearchLimit, maxSearchLimit]
  · intro v hv
    have h0 : v ≠ 0 := by omega
    simp only [clampLimit, Option.getD_some, if_neg h0]
    constructor
    · simp only [maxSearchLimit, le_min_iff]
      omega
    · exact min_le_right _ _
  · intro v hv
    have h0 : v ≠ 0 := by omega
    simp only [clampLimit, Option.getD_some, if_neg h0, maxSearchLimit]
    omega

/-- C3, witness for the amended theorem at limit 2000 and limit -7. -/
theorem c3_limit_clamping_witness :
    (1 ≤ clampLimit (some 2000) ∧ clampLimit (some 2000) ≤ maxSearchLimit) ∧
      clampLimit (some (-7)) = -7 :=
  ⟨c3_limit_clamping.2.2.2.1 2000 (by decide), c3_limit_clamping.2.2.2.2 (-7) (by decide)⟩

/-- C4, counterexample: the claim says every record missing both
filename and source title renders with title `"Unknown"`. A record with
no filename and no source title but quality `"720p"` renders with title
`"[720P]"`. -/
theorem c4_tags_only_title_not_unknown :
    tagsOnlyRecord.fileName = "" ∧ tagsOnlyRecord.metaTitle = "" ∧
      buildTitle tagsOnlyRecord = "[720P]" ∧ buildTitle tagsOnlyRecord ≠ "Unknown" := by
  refine ⟨rfl, rfl, by decide, by decide⟩

/-- C4, amended: the title is the filename, else the source title, else
no base part, with bracketed uppercase quality and codec tags appended;
`"Unknown"` appears only when filename, source title, quality and codec
are all absent — a record missing filename and source title but carrying
quality or codec renders only the bracketed tags. -/
theorem c4_title_construction (s : StreamRecord) :
    buildTitle s = claimTitle s ∧
    (s.fileName = "" → s.metaTitle = "" → s.videoQuality = "" → s.videoCodec = "" →
      buildTitle s = "Unknown") := by
  constructor
  · simp only [buildTitle, claimTitle]
    by_cases hf : s.fileName = "" <;> by_cases hm : s.metaTitle = "" <;>
      by_cases hq : s.videoQuality = "" <;> by_cases hc : s.videoCodec = "" <;>
      simp [hf, hm, hq, hc, String.intercalate]
  · intro hf hm hq hc
    simp [buildTitle, hf, hm, hq, hc]

/-- C4, witness for the amended theorem on a record with every part
absent. -/
theorem c4_title_construction_witness :
    buildTitle plainRecord = "Unknown" :=
  (c4_title_construction plainRecord).2 rfl rfl rfl rfl

/-- Helper: a `filterMap` over a list containing an element with `none`
image is strictly shorter than the list. -/
theorem length_filterMap_lt_of_none {α β : Type} (f : α → Option β) :
    ∀ (l : List α) (a : α), a ∈ l → f a = none → (List.filterMap f l).length < l.length := by
  intro l
  induction l with
  | nil => intro a ha _; exact absurd ha (List.not_mem_nil a)
  | cons b t ih =>
    intro a ha hfa
    rcases List.mem_cons.mp ha with heq | hmem
    · subst heq
      rw [List.filterMap_cons_none hfa]
      exact Nat.lt_succ_of_le (List.length_filterMap_le f t)
    · cases hfb : f b with
      | none =>
        rw [List.filterMap_cons_none hfb]
        exact Nat.lt_succ_of_lt (ih a hmem hfa)
      | some c =>
        rw [List.filterMap_cons_some hfb]
        simpa using Nat.succ_lt_succ (ih a hmem hfa)

/-- C7: a record whose item construction raises is skipped while the
document is still produced, with an item for every other record of the
batch that constructs successfully. -/
theorem c7_record_failure_localized (pre post : List StreamRecord) (bad : StreamRecord)
    (qt : String) (n : Nat) (hbad : buildItem bad qt = none) :
    (buildSearchResults ⟨pre ++ bad :: post, n⟩ qt).items
      = pre.filterMap (fun s => buildItem s qt) ++ post.filterMap (fun s => buildItem s qt) ∧
    (∀ s, s ∈ pre ++ post → ∀ it, buildItem s qt = some it →
      it ∈ (buildSearchResults ⟨pre ++ bad :: post, n⟩ qt).items) := by
  have hitems : (buildSearchResults ⟨pre ++ bad :: post, n⟩ qt).items
      = pre.filterMap (fun s => buildItem s qt) ++ post.filterMap (fun s => buildItem s qt) := by
    simp only [buildSearchResults, List.filterMap_append]
    rw [List.filterMap_cons_none (f := fun s => buildItem s qt) hbad]
  refine ⟨hitems, ?_⟩
  intro s hs it hit
  rw [hitems]
  rcases List.mem_append.mp hs with h | h
  · exact List.mem_append.mpr (Or.inl (List.mem_filterMap.mpr ⟨s, h, hit⟩))
  · exact List.mem_append.mpr (Or.inr (List.mem_filterMap.mpr ⟨s, h, hit⟩))

/-- C7, witness: a batch of a good record, a record whose construction
raises, and a metadata-free record renders the two surviving items. -/
theorem c7_record_failure_localized_witness :
    (buildSearchResults ⟨[goodRecord] ++ badRecord :: [plainRecord], 3⟩ "search").items
      = [goodRecord].filterMap (fun s => buildItem s "search")
        ++ [plainRecord].filterMap (fun s => buildItem s "search") :=
  (c7_record_failure_localized [goodRecord] [plainRecord] badRecord "search" 3 (by decide)).1

/-- C9: the IMDb identifier sent upstream is the bare numeric form — a
leading `tt` prefix is stripped, an identifier without it passes
unchanged, and an empty or absent identifier is omitted from the
upstream query. -/
theorem c9_imdb_normalization (q tvdb tmdb : Option String) (mt : MediaType) (lim : Int) :
    (∀ s : String, s ≠ "" → pyStartsWith s "tt" = true →
      (searchOrionoidQuery q (some s) tvdb tmdb mt lim).idimdb
        = if pyDrop s 2 ≠ "" then some (pyDrop s 2) else none) ∧
    (∀ s : String, s ≠ "" → pyStartsWith s "tt" = false →
      (searchOrionoidQuery q (some s) tvdb tmdb mt lim).idimdb = some s) ∧
    (searchOrionoidQuery q (some "") tvdb tmdb mt lim).idimdb = none ∧
    (searchOrionoidQuery q none tvdb tmdb mt lim).idimdb = none := by
  refine ⟨?_, ?_, ?_, ?_⟩
  · intro s hne hpre
    simp [searchOrionoidQuery, optParam, hne, hpre]
  · intro s hne hpre
    simp [searchOrionoidQuery, optParam, hne, hpre]
  · simp [searchOrionoidQuery, optParam]
  · simp [searchOrionoidQuery, optParam]

/-- C9, witness: `tt0133093` is sent as `0133093`. -/
theorem c9_imdb_normalization_witness :
    (searchOrionoidQuery (some "q") (some "tt0133093") none none .movie 5).idimdb
      = some "0133093" := by
  have h := (c9_imdb_normalization (some "q") none none .movie 5).1 "tt0133093"
    (by decide) (by decide)
  rw [h]; decide

/-- C10: the `total` attribute equals the number of records in the
payload, counted before item construction; when a record fails
construction the reported total strictly exceeds the number of items. -/
theorem c10_total_counts_all_records (payload : OrionPayload) (qt : String) :
    (buildSearchResults payload qt).total = payload.streams.length ∧
    (∀ bad, bad ∈ payload.streams → buildItem bad qt = none →
      (buildSearchResults payload qt).items.length < (buildSearchResults payload qt).total) := by
  refine ⟨rfl, ?_⟩
  intro bad hmem hbad
  simpa [buildSearchResults] using
    length_filterMap_lt_of_none (fun s => buildItem s qt) payload.streams bad hmem hbad

/-- C10, witness: with one good and one failing record the document
reports total 2 but renders fewer items. -/
theorem c10_total_counts_all_records_witness :
    (buildSearchResults ⟨[goodRecord, badRecord], 2⟩ "search").items.length
      < (buildSearchResults ⟨[goodRecord, badRecord], 2⟩ "search").total :=
  (c10_total_counts_all_records ⟨[goodRecord, badRecord], 2⟩ "search").2 badRecord
    (by decide) (by decide)

/-- C2, counterexample: the claim says the episode-metadata disjunct
"also covers items tagged show-type from a combined search". A record
tagged `_media_type = "show"` by the combined search but carrying no
episode metadata takes the movie branch: with quality `720p` under
function `search` the category is 2040 (Movies/HD), not a TV category —
`_determine_category` never reads the show tag. -/
theorem c2_show_tag_not_covered :
    showTaggedRecord.mediaTag = some "show" ∧ showTaggedRecord.hasEpisode = false ∧
      determineCategory showTaggedRecord "search" = 2040 := by
  refine ⟨rfl, rfl, by decide⟩

/-- C2, amended: the category is computed from the lowercased quality
string by ordered token tests (`2160`/`uhd`/`4k` to UHD, else
`1080`/`720`/`hd` to HD, else `480`/`sd` to SD, else the base category),
and the TV branch is taken exactly when the function is `tvsearch` or
the record carries episode metadata — a show-tagged item from a combined
search is covered only when it carries episode metadata. -/
theorem c2_category_inference (s : StreamRecord) (fn : String) :
    determineCategory s fn = claimCategory s fn ∧
    (5000 ≤ determineCategory s fn ↔ (fn = "tvsearch" ∨ s.hasEpisode = true)) := by
  constructor
  · simp only [determineCategory, claimCategory]
    rw [Bool.or_comm (strHasSub (pyLower s.videoQuality) "sd")
      (strHasSub (pyLower s.videoQuality) "480")]
  · by_cases htv : fn = "tvsearch" ∨ s.hasEpisode = true
    · have hb : (fn == "tvsearch" || s.hasEpisode) = true := by
        rcases htv with h | h <;> simp [h]
      simp only [determineCategory, hb, if_true]
      split_ifs <;> exact ⟨fun _ => htv, fun _ => by norm_num⟩
    · have hb : (fn == "tvsearch" || s.hasEpisode) = false := by
        push_neg at htv
        simp [htv.1, htv.2]
      simp only [determineCategory, hb, Bool.false_eq_true, if_false]
      split_ifs <;> exact ⟨fun h => absurd h (by norm_num), fun h => absurd h htv⟩

/-- Helper: every stream in a tagged batch carries the tag. -/
theorem mediaTag_of_mem_tagStreams (tag : String) (l : List StreamRecord) (s : StreamRecord)
    (h : s ∈ tagStreams tag l) : s.mediaTag = some tag := by
  rcases List.mem_map.mp h with ⟨x, _, rfl⟩
  rfl

/-- Helper: a successful combination of the two halves of an
uncategorized search concatenates the tagged survivors and recomputes
the count. -/
theorem combineBoth_ok (mr tr : Except String OrionPayload) :
    ((∃ msg, combineBoth mr tr = .error msg) ↔ (mr.toOption = none ∧ tr.toOption = none)) ∧
    (mr.toOption ≠ none ∨ tr.toOption ≠ none →
      combineBoth mr tr
        = .ok ⟨survTagged "movie" mr ++ survTagged "show" tr,
               (survTagged "movie" mr ++ survTagged "show" tr).length⟩) := by
  rcases mr with m | pm <;> rcases tr with m2 | pt <;>
    simp [combineBoth, Except.toOption, survTagged]

/-- C1: with a category parameter, `t=search` runs exactly one upstream
search, of media type Show when some numeric category code lies in
`[5000, 6000)` and Movie otherwise; without one it runs two upstream
searches (Movie and Show) at half the limit each, fails only when both
fail, and otherwise returns the surviving streams tagged with their
originating media type with the count recomputed. -/
theorem c1_search_routing (lim : Int) (u : MediaType → Int → Except String OrionPayload) :
    (∀ c : String, c ≠ "" →
      searchDispatch (some c) lim u = ([⟨mediaTypeFromCat c, lim⟩], u (mediaTypeFromCat c) lim) ∧
      (mediaTypeFromCat c = .show ↔ ∃ n ∈ parseCategories c, 5000 ≤ n ∧ n < 6000)) ∧
    (searchDispatch none lim u).1 = [⟨.movie, Int.fdiv lim 2⟩, ⟨.show, Int.fdiv lim 2⟩] ∧
    ((∃ msg, (searchDispatch none lim u).2 = .error msg) ↔
      ((u .movie (Int.fdiv lim 2)).toOption = none ∧ (u .show (Int.fdiv lim 2)).toOption = none)) ∧
    ((u .movie (Int.fdiv lim 2)).toOption ≠ none ∨ (u .show (Int.fdiv lim 2)).toOption ≠ none →
      (searchDispatch none lim u).2
        = .ok ⟨survTagged "movie" (u .movie (Int.fdiv lim 2))
                 ++ survTagged "show" (u .show (Int.fdiv lim 2)),
               (survTagged "movie" (u .movie (Int.fdiv lim 2))
                 ++ survTagged "show" (u .show (Int.fdiv lim 2))).length⟩) ∧
    (∀ s, s ∈ survTagged "movie" (u .movie (Int.fdiv lim 2))
              ++ survTagged "show" (u .show (Int.fdiv lim 2)) →
      s.mediaTag = some "movie" ∨ s.mediaTag = some "show") := by
  refine ⟨?_, ?_, ?_, ?_, ?_⟩
  · intro c hc
    constructor
    · simp [searchDispatch, hc]
    · have hiff : ((parseCategories c).any (fun n => 5000 ≤ n && n < 6000) = true)
          ↔ ∃ n ∈ parseCategories c, 5000 ≤ n ∧ n < 6000 := by
        simp [List.any_eq_true]
      unfold mediaTypeFromCat
      split_ifs with h
      · exact ⟨fun _ => hiff.mp h, fun _ => rfl⟩
      · exact ⟨fun habs => absurd habs (by decide), fun hex => absurd (hiff.mpr hex) h⟩
  · simp [searchDispatch, dualSearch]
  · simpa [searchDispatch, dualSearch] using
      (combineBoth_ok (u .movie (Int.fdiv lim 2)) (u .show (Int.fdiv lim 2))).1
  · intro hne
    simpa [searchDispatch, dualSearch] using
      (combineBoth_ok (u .movie (Int.fdiv lim 2)) (u .show (Int.fdiv lim 2))).2 hne
  · intro s hs
    rcases List.mem_append.mp hs with h | h
    · rcases hm : (u .movie (Int.fdiv lim 2)).toOption with _ | pm
      · rw [survTagged, hm] at h
        exact absurd h (List.not_mem_nil s)
      · rw [survTagged, hm] at h
        exact Or.inl (mediaTag_of_mem_tagStreams "movie" pm.streams s h)
    · rcases ht : (u .show (Int.fdiv lim 2)).toOption with _ | pt
      · rw [survTagged, ht] at h
        exact absurd h (List.not_mem_nil s)
      · rw [survTagged, ht] at h
        exact Or.inr (mediaTag_of_mem_tagStreams "show" pt.streams s h)

/-- C1, witness: `cat=5030` routes to a single Show search. -/
theorem c1_search_routing_witness :
    searchDispatch (some "5030") 10 sampleUpstream
      = ([⟨.show, 10⟩], sampleUpstream .show 10) := by
  have h := ((c1_search_routing 10 sampleUpstream).1 "5030" (by decide)).1
  have hmt : mediaTypeFromCat "5030" = MediaType.show := by decide
  rw [h, hmt]

/-- Helper: folding any search outcome into the response yields an XML
body. -/
theorem renderResult_xml (res : Except String OrionPayload) (qt : String) :
    ∃ x, renderResult res qt = .xml x := by
  rcases res with m | payload <;> exact ⟨_, rfl⟩

/-- Helper: once authentication passes, no branch of the endpoint
produces an HTTP 403. -/
theorem apiEndpoint_no403_of_auth_ok (secret : Option String) (clientInit : Bool)
    (u : MediaType → Int → Except String OrionPayload) (p : ReqParams)
    (hauth : checkApiKeyRejects secret p.apikey = false) :
    (apiEndpoint secret clientInit u p).2 ≠ .http 403 := by
  unfold apiEndpoint
  split_ifs with h1 h2 h3 h4 h5 h6
  · simp
  · rw [hauth] at h2
    exact absurd h2 (by decide)
  · simp
  · obtain ⟨x, hx⟩ := renderResult_xml (searchDispatch p.cat (clampLimit p.limit) u).2 "search"
    simp [hx]
  · obtain ⟨x, hx⟩ := renderResult_xml (u .show (clampLimit p.limit)) "tvsearch"
    simp [hx]
  · obtain ⟨x, hx⟩ := renderResult_xml (u .movie (clampLimit p.limit)) "movie"
    simp [hx]
  · simp

/-- C8: `t=caps` succeeds without authentication even when a secret is
configured; any other function with a configured secret and a
mismatching key is rejected with HTTP 403 before any upstream call; a
matching key, or no configured secret, is never rejected. -/
theorem c8_authentication (secret : Option String) (clientInit : Bool)
    (u : MediaType → Int → Except String OrionPayload) (p : ReqParams) :
    (p.t = "caps" → apiEndpoint secret clientInit u p = ([], .xml .caps)) ∧
    (∀ s, p.t ≠ "caps" → secret = some s → s ≠ "" → p.apikey ≠ some s →
      apiEndpoint secret clientInit u p = ([], .http 403)) ∧
    (secret = none → (apiEndpoint secret clientInit u p).2 ≠ .http 403) ∧
    (∀ s, secret = some s → p.apikey = some s →
      (apiEndpoint secret clientInit u p).2 ≠ .http 403) := by
  refine ⟨?_, ?_, ?_, ?_⟩
  · intro h
    simp [apiEndpoint, h]
  · intro s hne hsec hsne hkey
    subst hsec
    simp [apiEndpoint, hne, checkApiKeyRejects, hsne, hkey]
  · intro hsec
    subst hsec
    exact apiEndpoint_no403_of_auth_ok none clientInit u p rfl
  · intro s hsec hkey
    subst hsec
    refine apiEndpoint_no403_of_auth_ok (some s) clientInit u p ?_
    simp [checkApiKeyRejects, hkey]

/-- C8, witness: an unauthenticated `t=caps` request succeeds with a
configured secret, and a `t=search` request with a wrong key is rejected
with HTTP 403 and no upstream call. -/
theorem c8_authentication_witness :
    apiEndpoint (some "sec") true sampleUpstream ⟨"caps", none, none, none, none, none⟩
      = ([], .xml .caps) ∧
    apiEndpoint (some "sec") true sampleUpstream ⟨"search", some "wrong", none, none, none, none⟩
      = ([], .http 403) := by
  constructor
  · exact (c8_authentication (some "sec") true sampleUpstream
      ⟨"caps", none, none, none, none, none⟩).1 rfl
  · exact (c8_authentication (some "sec") true sampleUpstream
      ⟨"search", some "wrong", none, none, none, none⟩).2.1 "sec"
      (by decide) rfl (by decide) (by decide)

/-- C5, counterexample: the claim says the only HTTP-level rejection is
for authentication failures. An authenticated request (no secret
configured) with `t=search` while the upstream client is uninitialized
is rejected at the HTTP level with 503, with no XML body (main.py lines
262-263, re-raised by the `except HTTPException` clause). -/
theorem c5_uninitialized_client_http_rejection :
    (apiEndpoint none false sampleUpstream ⟨"search", none, none, none, none, none⟩).2
      = ApiResult.http 503 := by
  decide

/-- C5, amended: once authentication passes and the upstream client is
initialized, an XML body is always returned: an unknown function yields
a Torznab error document with code 201 (never an HTTP 500), and an
upstream failure in any search branch yields an error document with code
100 carrying the failure message. The HTTP-level rejections are
authentication failures (403) and the uninitialized-client case (503). -/
theorem c5_error_rendering (secret : Option String)
    (u : MediaType → Int → Except String OrionPayload) (p : ReqParams)
    (hauth : checkApiKeyRejects secret p.apikey = false) :
    (∃ x, (apiEndpoint secret true u p).2 = .xml x) ∧
    (p.t ≠ "caps" → p.t ≠ "search" → p.t ≠ "tvsearch" → p.t ≠ "movie" →
      (apiEndpoint secret true u p).2
        = .xml (.errorDoc 201 ("Incorrect parameter: unknown function " ++ p.t))) ∧
    (∀ msg, p.t = "tvsearch" → u .show (clampLimit p.limit) = .error msg →
      (apiEndpoint secret true u p).2 = .xml (.errorDoc 100 msg)) ∧
    (∀ msg, p.t = "movie" → u .movie (clampLimit p.limit) = .error msg →
      (apiEndpoint secret true u p).2 = .xml (.errorDoc 100 msg)) ∧
    (∀ msg, p.t = "search" → (searchDispatch p.cat (clampLimit p.limit) u).2 = .error msg →
      (apiEndpoint secret true u p).2 = .xml (.errorDoc 100 msg)) := by
  refine ⟨?_, ?_, ?_, ?_, ?_⟩
  · by_cases h1 : p.t = "caps"
    · exact ⟨.caps, by simp [apiEndpoint, h1]⟩
    · by_cases h2 : p.t = "search"
      · obtain ⟨x, hx⟩ := renderResult_xml (searchDispatch p.cat (clampLimit p.limit) u).2 "search"
        exact ⟨x, by simp [apiEndpoint, h1, h2, hauth, hx]⟩
      · by_cases h3 : p.t = "tvsearch"
        · obtain ⟨x, hx⟩ := renderResult_xml (u .show (clampLimit p.limit)) "tvsearch"
          exact ⟨x, by simp [apiEndpoint, h1, h2, h3, hauth, hx]⟩
        · by_cases h4 : p.t = "movie"
          · obtain ⟨x, hx⟩ := renderResult_xml (u .movie (clampLimit p.limit)) "movie"
            exact ⟨x, by simp [apiEndpoint, h1, h2, h3, h4, hauth, hx]⟩
          · exact ⟨.errorDoc 201 ("Incorrect parameter: unknown function " ++ p.t),
              by simp [apiEndpoint, h1, h2, h3, h4, hauth]⟩
  · intro h1 h2 h3 h4
    simp [apiEndpoint, h1, h2, h3, h4, hauth]
  · intro msg h3 herr
    have h1 : p.t ≠ "caps" := by rw [h3]; decide
    have h2 : p.t ≠ "search" := by rw [h3]; decide
    simp [apiEndpoint, h1, h2, h3, hauth, herr, renderResult]
  · intro msg h4 herr
    have h1 : p.t ≠ "caps" := by rw [h4]; decide
    have h2 : p.t ≠ "search" := by rw [h4]; decide
    have h3 : p.t ≠ "tvsearch" := by rw [h4]; decide
    simp [apiEndpoint, h1, h2, h3, h4, hauth, herr, renderResult]
  · intro msg h2 herr
    have h1 : p.t ≠ "caps" := by rw [h2]; decide
    simp [apiEndpoint, h1, h2, hauth, herr, renderResult]

/-- C5, witness: an authenticated `t=bogus` request returns the code-201
error document. -/
theorem c5_error_rendering_witness :
    (apiEndpoint none true sampleUpstream ⟨"bogus", none, none, none, none, none⟩).2
      = .xml (.errorDoc 201 "Incorrect parameter: unknown function bogus") := by
  have h := (c5_error_rendering none sampleUpstream
    ⟨"bogus", none, none, none, none, none⟩ rfl).2.1 (by decide) (by decide) (by decide) (by decide)
  rw [h]
  decide

/-- C6, counterexample: the claim says an unhealthy result forces a
fresh recheck on the next call. With a healthy result cached at time 0,
a forced call at time 5 recomputes an unhealthy result (which is not
cached, leaving the old entry in place); the next unforced call at time
10 is served from the still-fresh healthy cache without any recheck. -/
theorem c6_unhealthy_not_rechecked :
    ((healthCheckStep ⟨some ⟨"healthy", 7, 200⟩, some 0⟩ true 5 "unhealthy" 9).1.resp.overall
        = "unhealthy"
      ∧ (healthCheckStep ⟨some ⟨"healthy", 7, 200⟩, some 0⟩ true 5 "unhealthy" 9).1.recomputed
        = true)
    ∧ (healthCheckStep
        (healthCheckStep ⟨some ⟨"healthy", 7, 200⟩, some 0⟩ true 5 "unhealthy" 9).2
        false 10 "healthy" 11).1.recomputed = false := by
  refine ⟨⟨by decide, by decide⟩, by decide⟩

/-- C6, amended: an unforced call served while a cached result exists
and is under 30 seconds old returns it verbatim with its original status
code; a forced call always recomputes; only non-unhealthy results are
ever stored, so an unhealthy result is never served from the cache — it
leaves the cache unchanged, and when no cache entry exists the next call
recomputes (though a previously stored, still-fresh healthy entry may
still be served). -/
theorem c6_health_cache (st : HealthState) (force : Bool) (now : Int)
    (freshStatus : String) (freshPayload : Nat) :
    (∀ c tm, force = false → st.cache = some c → st.cacheTime = some tm → now - tm < 30 →
      healthCheckStep st force now freshStatus freshPayload = (⟨c, c.statusCode, false⟩, st)) ∧
    ((healthCheckStep st true now freshStatus freshPayload).1.recomputed = true) ∧
    ((∀ c, st.cache = some c → c.overall ≠ "unhealthy") →
      ∀ c, (healthCheckStep st force now freshStatus freshPayload).2.cache = some c →
        c.overall ≠ "unhealthy") ∧
    ((healthCheckStep st force now freshStatus freshPayload).1.recomputed = true →
      freshStatus = "unhealthy" →
      (healthCheckStep st force now freshStatus freshPayload).2 = st) ∧
    (st.cache = none →
      ∀ force2 now2 fresh2 payload2,
        (healthCheckStep (healthCheckStep st force now "unhealthy" freshPayload).2
          force2 now2 fresh2 payload2).1.recomputed = true) := by
  refine ⟨?_, ?_, ?_, ?_, ?_⟩
  · intro c tm hforce hcache htime hfresh
    subst hforce
    have hl : cacheLookup st false now = some c := by
      simp [cacheLookup, hcache, htime, hfresh]
    simp [healthCheckStep, hl]
  · have hl : cacheLookup st true now = none := by simp [cacheLookup]
    simp [healthCheckStep, hl]
  · intro hinv c hc
    rcases hl : cacheLookup st force now with _ | c1
    · simp only [healthCheckStep, hl] at hc
      split_ifs at hc with hfr
      · simp only [Option.some.injEq] at hc
        subst hc
        simpa using hfr
      · exact hinv c hc
    · simp only [healthCheckStep, hl] at hc
      exact hinv c hc
  · intro hrec hfresh
    subst hfresh
    rcases hl : cacheLookup st force now with _ | c1
    · simp [healthCheckStep, hl]
    · simp [healthCheckStep, hl] at hrec
  · intro hcache
    intro force2 now2 fresh2 payload2
    have hl : cacheLookup st force now = none := by
      cases hf : force <;> simp [cacheLookup, hcache]
    have hstate : (healthCheckStep st force now "unhealthy" freshPayload).2 = st := by
      simp [healthCheckStep, hl]
    rw [hstate]
    have hl2 : cacheLookup st force2 now2 = none := by
      cases hf : force2 <;> simp [cacheLookup, hcache]
    simp [healthCheckStep, hl2]

/-- C6, witness: an unforced call 10 seconds after a cached healthy
result returns it verbatim with its original 200 status code. -/
theorem c6_health_cache_witness :
    healthCheckStep ⟨some ⟨"healthy", 7, 200⟩, some 0⟩ false 10 "degraded" 3
      = (⟨⟨"healthy", 7, 200⟩, 200, false⟩, ⟨some ⟨"healthy", 7, 200⟩, some 0⟩) :=
  (c6_health_cache ⟨some ⟨"healthy", 7, 200⟩, some 0⟩ false 10 "degraded" 3).1
    ⟨"healthy", 7, 200⟩ 0 rfl rfl rfl (by decide)

end POB
